import Mathlib

/-!
Verification of the dsport-ui calendar and view-state engine.

The development shallowly embeds the logic of the App component and the
twa-sdk helper module:

* JavaScript Date values are modelled by their day number (days since
  1970-01-01 in the proleptic Gregorian calendar, local time).  All dates the
  program constructs are local midnights, so a single integer suffices.  The
  accessors getFullYear, getMonth (0-based, as in JavaScript), getDate
  (1-based) and getDay (Sunday = 0) follow the ECMAScript date abstract
  operations: DayFromYear, YearFromTime (the greatest year whose first day is
  not after the given day), MonthFromTime, DateFromTime, WeekDay and MakeDay
  (month overflow normalised by carrying into the year).  The month-offset and
  month-length tables are realised by closed arithmetic formulas; the
  monthOffset_eval and monthLen_eval theorems check them against the familiar
  table values for both leap and non-leap years.
* toISOString().slice(0, 10) formats the UTC day of the instant.  A Date built
  by the component is the local midnight of its civil day, so the UTC day is
  obtained by subtracting the environment's UTC offset (minutes east of UTC,
  held fixed) before dividing by the length of a day.  Year formatting models
  the four-digit zero-padded range 0-9999 used by the application.
* The locale label produced by Intl.DateTimeFormat for the ru-RU long date
  format is modelled by the genitive month-name table.
* React state is collected in the AppState structure; each event handler of
  the component becomes a pure state transformer.  The one-shot workout fetch
  is modelled by a FetchOutcome (success, non-2xx status, network failure, or
  abort) applied to the state exactly as the loadWorkouts function applies it,
  including the finally clause that always clears the loading flag.  The Step
  relation collects every operation of one mounted component, with the fetch
  guarded so that it settles at most once, and Reachable is the closure of
  Step from the initial state.
* The theme subsystem state is the ThemeState structure: the user toggle mode,
  the cached host-derived palette (systemThemeRef) and the style variables
  currently applied to the document root.  Host theme parameters are optional
  per key; none models an absent (or falsy) host value.
-/

/-- Gregorian leap-year predicate, as in the ECMAScript DaysInYear rule. -/
def isLeap (y : Int) : Bool :=
  y % 4 == 0 && (y % 100 != 0 || y % 400 == 0)

/-- ECMAScript InLeapYear: 1 in a leap year, 0 otherwise. -/
def inLeapYear (y : Int) : Int := if isLeap y then 1 else 0

/-- ECMAScript DayFromYear: the day number of January 1 of year y. -/
def dayFromYear (y : Int) : Int :=
  365 * (y - 1970) + (y - 1969) / 4 - (y - 1901) / 100 + (y - 1601) / 400

/-- ECMAScript YearFromTime: the unique year whose days bracket the given day
number.  Computed by an initial estimate from the 400-year cycle length
(146097 days) followed by at most two corrections; the theorem
yearFromDay_spec establishes the defining bracketing property. -/
def yearFromDay (z : Int) : Int :=
  let y1 := 1970 + (400 * z) / 146097
  if z < dayFromYear y1 then y1 - 1
  else if z < dayFromYear (y1 + 1) then y1
  else y1 + 1

/-- Days before month m (0-based) in a year with L leap days: the table
0, 31, 59 + L, 90 + L, ..., 334 + L, realised by a closed formula over the
five-month 153-day cycle that starts in March.  The theorem monthOffset_eval
checks the formula against the table. -/
def monthOffset (L m : Int) : Int :=
  if m < 2 then 31 * m else 59 + L + (153 * (m - 2) + 2) / 5

/-- Length of month m (0-based) in a year with L leap days. -/
def monthLen (L m : Int) : Int := monthOffset L (m + 1) - monthOffset L m

/-- ECMAScript MonthFromTime: the month of a day-within-year value. -/
def monthFromDwy (L dwy : Int) : Int :=
  if dwy < 59 + L then dwy / 31 else 2 + (5 * (dwy - 59 - L) + 2) / 153

/-- ECMAScript MakeDay: day number of (year, month, date), with the month
normalised into the year by floored division, as new Date(y, m, d) does. -/
def makeDay (y m d : Int) : Int :=
  dayFromYear (y + m / 12) + monthOffset (inLeapYear (y + m / 12)) (m % 12) + (d - 1)

/-- Model of Date.prototype.getFullYear on a local-midnight day number. -/
def getFullYear (z : Int) : Int := yearFromDay z

/-- ECMAScript DayWithinYear. -/
def dayWithinYear (z : Int) : Int := z - dayFromYear (yearFromDay z)

/-- Model of Date.prototype.getMonth (0 = January ... 11 = December). -/
def getMonth (z : Int) : Int := monthFromDwy (inLeapYear (yearFromDay z)) (dayWithinYear z)

/-- Model of Date.prototype.getDate (1-based day of month). -/
def getDate (z : Int) : Int :=
  dayWithinYear z - monthOffset (inLeapYear (yearFromDay z)) (getMonth z) + 1

/-- Model of Date.prototype.getDay (0 = Sunday ... 6 = Saturday); day 0,
1970-01-01, was a Thursday. -/
def getDay (z : Int) : Int := (z + 4) % 7

/-- Number of days in month m (0-based) of year y. -/
def daysInMonth (y m : Int) : Int := monthLen (inLeapYear y) m

/-- Model of Date.prototype.setDate: rebuild the day from the date's own year
and month and the new day-of-month value (which may over- or underflow). -/
def setDate (z d : Int) : Int := makeDay (getFullYear z) (getMonth z) d

/-- Two-digit zero padding, as used for months and days in an ISO string. -/
def pad2 (n : Int) : String := if n < 10 then "0" ++ toString n else toString n

/-- Four-digit zero padding for years 0-9999, the range in which the
toISOString year field is four digits. -/
def pad4 (n : Int) : String :=
  if n < 10 then "000" ++ toString n
  else if n < 100 then "00" ++ toString n
  else if n < 1000 then "0" ++ toString n
  else toString n

/-- The zero-padded YYYY-MM-DD day string of the spec, from a civil
(year, 0-based month, day) triple. -/
def isoDayString (y m0 d : Int) : String :=
  pad4 y ++ "-" ++ pad2 (m0 + 1) ++ "-" ++ pad2 d

/-- UTC calendar day of the local-midnight instant of local day z, in an
environment whose fixed UTC offset is tz minutes east of UTC. -/
def utcDayOfLocalMidnight (tz z : Int) : Int :=
  (z * 86400000 - tz * 60000) / 86400000

/-- Model of date.toISOString().slice(0, 10): the ISO day string of the UTC
day of the instant.  toISOString formats in UTC, while the component builds
its Date values at local midnight, so the two calendars disagree east of
UTC. -/
def toISODateString (tz z : Int) : String :=
  isoDayString (getFullYear (utcDayOfLocalMidnight tz z))
    (getMonth (utcDayOfLocalMidnight tz z)) (getDate (utcDayOfLocalMidnight tz z))

/-- Genitive Russian month names produced by the ru-RU long date format. -/
def ruMonthName (m : Int) : String :=
  if m = 0 then "января" else if m = 1 then "февраля" else if m = 2 then "марта"
  else if m = 3 then "апреля" else if m = 4 then "мая" else if m = 5 then "июня"
  else if m = 6 then "июля" else if m = 7 then "августа" else if m = 8 then "сентября"
  else if m = 9 then "октября" else if m = 10 then "ноября" else "декабря"

/-- Model of dayLabelFormatter.format: the ru-RU long date, for example
"5 февраля 2024 г.". -/
def formatDayLabel (z : Int) : String :=
  toString (getDate z) ++ " " ++ ruMonthName (getMonth z) ++ " " ++
    toString (getFullYear z) ++ " г."

/-- The Workout record fetched from the backend. -/
structure Workout where
  title : String
  date : String
  exercises : List String
deriving DecidableEq

/-- Lookup in the workoutsByDate grouping built by the reduce over the fetched
list: the record groups workouts by their date key in fetch order, so the
lookup of a key returns exactly the workouts whose date equals it, and an
absent key yields the empty list. -/
def workoutsByDate (workouts : List Workout) (date : String) : List Workout :=
  workouts.filter (fun w => w.date == date)

/-- One cell of the calendar grid, as assembled by the calendarCells memo. -/
structure CalendarCell where
  isoDate : String
  date : Int
  inCurrentMonth : Bool
  hasWorkout : Bool
  isToday : Bool
  label : String
deriving DecidableEq

/-- The startOfMonth value of the calendarCells memo: the first day of the
displayed month. -/
def firstOfDisplayedMonth (displayedMonth : Int) : Int :=
  makeDay (getFullYear displayedMonth) (getMonth displayedMonth) 1

/-- The gridStart value of the calendarCells memo: step back from the first of
the month by the Monday-relative offset (weekday + 6) mod 7 via setDate. -/
def gridStartOf (displayedMonth : Int) : Int :=
  setDate (firstOfDisplayedMonth displayedMonth)
    (getDate (firstOfDisplayedMonth displayedMonth) -
      (getDay (firstOfDisplayedMonth displayedMonth) + 6) % 7)

/-- The calendarCells memo of the component: 42 cells built from consecutive
days starting at the grid start.  The parameter today is the value the source
reads from new Date() inside the memo (the ambient clock at build time), and
tz is the environment's UTC offset used by toISOString. -/
def calendarCells (tz displayedMonth : Int) (workouts : List Workout) (today : Int) :
    List CalendarCell :=
  (List.range 42).map fun (index : Nat) =>
    let date := makeDay (getFullYear (gridStartOf displayedMonth))
      (getMonth (gridStartOf displayedMonth))
      (getDate (gridStartOf displayedMonth) + (index : Int))
    let isoDate := toISODateString tz date
    { isoDate := isoDate
      date := date
      inCurrentMonth :=
        getMonth date == getMonth displayedMonth &&
          getFullYear date == getFullYear displayedMonth
      hasWorkout := !(workoutsByDate workouts isoDate).isEmpty
      isToday :=
        getFullYear date == getFullYear today && getMonth date == getMonth today &&
          getDate date == getDate today
      label := formatDayLabel date }

/-- The anchor produced by goToPreviousMonth: new Date(year, month - 1, 1). -/
def goToPreviousMonthAnchor (current : Int) : Int :=
  makeDay (getFullYear current) (getMonth current - 1) 1

/-- The anchor produced by goToNextMonth: new Date(year, month + 1, 1). -/
def goToNextMonthAnchor (current : Int) : Int :=
  makeDay (getFullYear current) (getMonth current + 1) 1

/-- The React state of one mounted App component.  The fetchDone flag is a
ghost field recording that the single mount-time fetch has settled; the
remaining fields are the useState and useRef cells of the component. -/
structure AppState where
  fetchDone : Bool
  workouts : List Workout
  fetchError : Option String
  isLoadingWorkouts : Bool
  selectedDate : Option String
  displayedMonth : Int
  touchStartX : Option Int
deriving DecidableEq

/-- The goToPreviousMonth click handler. -/
def goToPreviousMonth (st : AppState) : AppState :=
  { st with displayedMonth := goToPreviousMonthAnchor st.displayedMonth }

/-- The goToNextMonth click handler. -/
def goToNextMonth (st : AppState) : AppState :=
  { st with displayedMonth := goToNextMonthAnchor st.displayedMonth }

/-- The handleTouchStart handler: record the first touch point's X, or null
when the touches list is empty. -/
def handleTouchStart (touchX : Option Int) (st : AppState) : AppState :=
  { st with touchStartX := touchX }

/-- The handleTouchEnd handler.  With no recorded start it returns early;
otherwise the delta against the first changed touch (coordinate 0 when the
changed-touches list is empty, from the ?? 0 fallback) is compared with the
fixed threshold of 40 pixels, and the recorded start is cleared. -/
def handleTouchEnd (endX : Option Int) (st : AppState) : AppState :=
  match st.touchStartX with
  | none => st
  | some startX =>
    let delta := endX.getD 0 - startX
    let threshold : Int := 40
    let st1 :=
      if delta > threshold then goToPreviousMonth st
      else if delta < -threshold then goToNextMonth st
      else st
    { st1 with touchStartX := none }

/-- The handleDaySelect handler: a no-op unless the cell carries a workout. -/
def handleDaySelect (isoDate : String) (hasWorkout : Bool) (st : AppState) : AppState :=
  if hasWorkout then { st with selectedDate := some isoDate } else st

/-- A day selection as issued by the grid, which passes the cell's hasWorkout
flag computed from the workout index at the same iso key. -/
def selectDay (isoDate : String) (st : AppState) : AppState :=
  handleDaySelect isoDate (!(workoutsByDate st.workouts isoDate).isEmpty) st

/-- The closeModal handler. -/
def closeModal (st : AppState) : AppState := { st with selectedDate := none }

/-- The message thrown by loadWorkouts for a non-2xx response status. -/
def fetchErrorMessage (status : Nat) : String :=
  "Не удалось загрузить тренировки: " ++ toString status

/-- How the single workout fetch settles: a parsed payload, a non-2xx
response, a network or parse failure carrying its message (or the fallback
message for a non-Error rejection), or an abort. -/
inductive FetchOutcome where
  | success (payload : List Workout)
  | httpError (status : Nat)
  | networkError (message : String)
  | aborted

/-- State effect of the loadWorkouts async function for a given outcome: the
loading flag is raised at the start, a success stores the payload and clears
the error, an HTTP or network failure stores the message, an abort returns
from the catch without touching workouts or the error, and the finally clause
always clears the loading flag. -/
def loadWorkouts (outcome : FetchOutcome) (st : AppState) : AppState :=
  let started := { st with isLoadingWorkouts := true }
  let settled :=
    match outcome with
    | FetchOutcome.success payload =>
        { started with workouts := payload, fetchError := none }
    | FetchOutcome.httpError status =>
        { started with fetchError := some (fetchErrorMessage status) }
    | FetchOutcome.networkError message =>
        { started with fetchError := some message }
    | FetchOutcome.aborted => started
  { settled with isLoadingWorkouts := false }

/-- The initial component state: no workouts, loading, nothing selected, the
displayed month anchored to the first of the current month. -/
def initialState (today : Int) : AppState :=
  { fetchDone := false
    workouts := []
    fetchError := none
    isLoadingWorkouts := true
    selectedDate := none
    displayedMonth := makeDay (getFullYear today) (getMonth today) 1
    touchStartX := none }

/-- One user-visible operation of the mounted component.  The fetch step is
guarded so the one-shot mount fetch settles at most once. -/
inductive Step : AppState → AppState → Prop where
  | fetch (outcome : FetchOutcome) (st : AppState) (h : st.fetchDone = false) :
      Step st { loadWorkouts outcome st with fetchDone := true }
  | select (isoDate : String) (st : AppState) : Step st (selectDay isoDate st)
  | close (st : AppState) : Step st (closeModal st)
  | prevMonth (st : AppState) : Step st (goToPreviousMonth st)
  | nextMonth (st : AppState) : Step st (goToNextMonth st)
  | touchStart (x : Option Int) (st : AppState) : Step st (handleTouchStart x st)
  | touchEnd (x : Option Int) (st : AppState) : Step st (handleTouchEnd x st)

/-- States reachable from the initial state of a mount. -/
inductive Reachable (today : Int) : AppState → Prop where
  | init : Reachable today (initialState today)
  | step {st st' : AppState} : Reachable today st → Step st st' → Reachable today st'

/-- The selection invariant: a selected date always has a non-empty workout
index entry; the auxiliary conjunct records that the workout list stays empty
until the fetch settles. -/
def SelectionInv (st : AppState) : Prop :=
  (∀ d : String, st.selectedDate = some d → workoutsByDate st.workouts d ≠ []) ∧
  (st.fetchDone = false → st.workouts = [])

/-- The seven theme CSS variables managed by the component. -/
inductive ThemeKey where
  | bgColor
  | textColor
  | hintColor
  | buttonColor
  | buttonTextColor
  | secondaryBgColor
  | linkColor
deriving DecidableEq

/-- A total assignment of color strings to the theme variables. -/
def Palette : Type := ThemeKey → String

/-- Host theme parameters: per key, an optional color (none models an absent
or falsy host value, which both the extractor and applyThemeParams skip). -/
def ThemeParams : Type := ThemeKey → Option String

/-- The user-toggled theme mode. -/
inductive ThemeMode where
  | dark
  | light
deriving DecidableEq

/-- The initial systemThemeRef palette of built-in dark defaults. -/
def systemThemeDefault : Palette := fun k =>
  match k with
  | ThemeKey.bgColor => "#0b1120"
  | ThemeKey.textColor => "#f8fafc"
  | ThemeKey.hintColor => "#94a3b8"
  | ThemeKey.buttonColor => "#2a9df4"
  | ThemeKey.buttonTextColor => "#ffffff"
  | ThemeKey.secondaryBgColor => "rgba(15, 23, 42, 0.5)"
  | ThemeKey.linkColor => "#38bdf8"

/-- The constant light palette of the component. -/
def lightTheme : Palette := fun k =>
  match k with
  | ThemeKey.bgColor => "#f8fafc"
  | ThemeKey.textColor => "#0f172a"
  | ThemeKey.hintColor => "#64748b"
  | ThemeKey.buttonColor => "#2563eb"
  | ThemeKey.buttonTextColor => "#ffffff"
  | ThemeKey.secondaryBgColor => "#e2e8f0"
  | ThemeKey.linkColor => "#2563eb"

/-- The applyCssVariables callback: writes every key of the given record to
the document root, so the applied variables become exactly that record. -/
def applyCssVariables (vars : Palette) (_applied : Palette) : Palette := vars

/-- The applyThemeParams helper of the twa-sdk module: writes each host theme
value that is present to the corresponding root style variable and leaves the
other variables untouched. -/
def applyThemeParams (theme : ThemeParams) (applied : Palette) : Palette := fun k =>
  match theme k with
  | some value => value
  | none => applied k

/-- The extractThemeFromWebApp callback: start from the currently cached
palette and override each key the host supplies. -/
def extractThemeFromWebApp (cached : Palette) (themeParams : ThemeParams) : Palette := fun k =>
  match themeParams k with
  | some value => value
  | none => cached k

/-- The theme subsystem state: the toggle mode (theme and themeRef), the
cached host-derived palette (systemThemeRef) and the style variables applied
to the document root. -/
structure ThemeState where
  mode : ThemeMode
  cached : Palette
  applied : Palette

/-- The handleThemeChange listener: apply the host-supplied parameters to the
root style unconditionally, re-derive the cached palette from the previous
cache and the host values, and re-apply the full cached palette only when the
current mode is dark. -/
def handleThemeChange (host : ThemeParams) (st : ThemeState) : ThemeState :=
  let applied1 := applyThemeParams host st.applied
  let cached1 := extractThemeFromWebApp st.cached host
  let applied2 :=
    if st.mode = ThemeMode.dark then applyCssVariables cached1 applied1 else applied1
  { mode := st.mode, cached := cached1, applied := applied2 }

/-- The toggleTheme handler together with the theme effect it triggers: flip
the mode and apply whichever palette the new mode selects, leaving the cached
palette untouched. -/
def toggleTheme (st : ThemeState) : ThemeState :=
  let mode1 := match st.mode with
    | ThemeMode.dark => ThemeMode.light
    | ThemeMode.light => ThemeMode.dark
  let applied1 := if mode1 = ThemeMode.light then applyCssVariables lightTheme st.applied
    else applyCssVariables st.cached st.applied
  { mode := mode1, cached := st.cached, applied := applied1 }

/-- The anchor of February 2024 (months are 0-based, so month 1). -/
def februaryAnchor2024 : Int := makeDay 2024 1 1

/-- A concrete workout dated 2024-01-29, used in concrete instances. -/
def workoutJan29 : Workout :=
  { title := "Leg Day", date := "2024-01-29", exercises := ["Squat", "Lunge"] }

/-- Host theme parameters supplying only a background color. -/
def hostBgOnly : ThemeParams := fun k =>
  match k with
  | ThemeKey.bgColor => some "#123456"
  | _ => none

/-- A theme state in light mode with the light palette applied. -/
def lightThemeState : ThemeState :=
  { mode := ThemeMode.light, cached := systemThemeDefault, applied := lightTheme }

/-- A theme state in dark mode with the dark defaults applied. -/
def darkThemeState : ThemeState :=
  { mode := ThemeMode.dark, cached := systemThemeDefault, applied := systemThemeDefault }

/-- A concrete post-fetch app state with a recorded touch start at X = 200. -/
def demoAppState : AppState :=
  { fetchDone := true
    workouts := [workoutJan29]
    fetchError := none
    isLoadingWorkouts := false
    selectedDate := none
    displayedMonth := februaryAnchor2024
    touchStartX := some 200 }

/-- Conformance of the month-offset formula with the cumulative day table for
a year carrying L leap days. -/
theorem monthOffset_eval (L : Int) :
    monthOffset L 0 = 0 ∧ monthOffset L 1 = 31 ∧ monthOffset L 2 = 59 + L ∧
    monthOffset L 3 = 90 + L ∧ monthOffset L 4 = 120 + L ∧ monthOffset L 5 = 151 + L ∧
    monthOffset L 6 = 181 + L ∧ monthOffset L 7 = 212 + L ∧ monthOffset L 8 = 243 + L ∧
    monthOffset L 9 = 273 + L ∧ monthOffset L 10 = 304 + L ∧ monthOffset L 11 = 334 + L ∧
    monthOffset L 12 = 365 + L := by
  unfold monthOffset
  norm_num
  all_goals omega

/-- Conformance of the month-length formula with the usual table. -/
theorem monthLen_eval (L : Int) :
    monthLen L 0 = 31 ∧ monthLen L 1 = 28 + L ∧ monthLen L 2 = 31 ∧ monthLen L 3 = 30 ∧
    monthLen L 4 = 31 ∧ monthLen L 5 = 30 ∧ monthLen L 6 = 31 ∧ monthLen L 7 = 31 ∧
    monthLen L 8 = 30 ∧ monthLen L 9 = 31 ∧ monthLen L 10 = 30 ∧ monthLen L 11 = 31 := by
  unfold monthLen monthOffset
  norm_num
  all_goals omega

theorem inLeapYear_cases (y : Int) : inLeapYear y = 0 ∨ inLeapYear y = 1 := by
  unfold inLeapYear
  split_ifs <;> simp

/-- Defining property of yearFromDay: January 1 of the computed year is not
after the day, and January 1 of the following year is after it. -/
theorem yearFromDay_spec (z : Int) :
    dayFromYear (yearFromDay z) ≤ z ∧ z < dayFromYear (yearFromDay z + 1) := by
  unfold yearFromDay dayFromYear
  dsimp only
  split_ifs <;>
    (try rw [show (1970 + 400 * z / 146097 - 1 + 1 : Int) = 1970 + 400 * z / 146097 from by
      ring]) <;>
    omega

theorem dayFromYear_mono {y y' : Int} (h : y ≤ y') : dayFromYear y ≤ dayFromYear y' := by
  unfold dayFromYear
  omega

theorem isLeap_iff (y : Int) :
    isLeap y = true ↔ (y % 4 = 0 ∧ (¬ y % 100 = 0 ∨ y % 400 = 0)) := by
  simp [isLeap]

theorem inLeapYear_ite (y : Int) :
    inLeapYear y = if y % 4 = 0 ∧ (¬ y % 100 = 0 ∨ y % 400 = 0) then 1 else 0 := by
  by_cases hc : y % 4 = 0 ∧ (¬ y % 100 = 0 ∨ y % 400 = 0)
  · rw [if_pos hc]
    unfold inLeapYear
    rw [(isLeap_iff y).mpr hc]
    rfl
  · rw [if_neg hc]
    have hf : isLeap y = false := by
      rcases hb : isLeap y
      · rfl
      · exact absurd ((isLeap_iff y).mp hb) hc
    unfold inLeapYear
    rw [hf]
    rfl

theorem dayFromYear_succ (y : Int) :
    dayFromYear (y + 1) = dayFromYear y + 365 + inLeapYear y := by
  rw [inLeapYear_ite]
  unfold dayFromYear
  split_ifs <;> omega

theorem yearFromDay_bracket {y z : Int} (h1 : dayFromYear y ≤ z)
    (h2 : z < dayFromYear (y + 1)) : yearFromDay z = y := by
  rcases yearFromDay_spec z with ⟨s1, s2⟩
  rcases lt_trichotomy (yearFromDay z) y with h | h | h
  · have := dayFromYear_mono (show yearFromDay z + 1 ≤ y from by omega)
    omega
  · exact h
  · have := dayFromYear_mono (show y + 1 ≤ yearFromDay z from by omega)
    omega

theorem monthFromDwy_spec (L dwy : Int) (hL : L = 0 ∨ L = 1) (h0 : 0 ≤ dwy)
    (h1 : dwy < 365 + L) :
    0 ≤ monthFromDwy L dwy ∧ monthFromDwy L dwy < 12 ∧
    monthOffset L (monthFromDwy L dwy) ≤ dwy ∧
    dwy < monthOffset L (monthFromDwy L dwy) + monthLen L (monthFromDwy L dwy) := by
  unfold monthFromDwy monthLen monthOffset
  split_ifs <;> omega

theorem monthFromDwy_eq (L m dwy : Int) (hL : L = 0 ∨ L = 1) (hm0 : 0 ≤ m) (hm1 : m < 12)
    (hlo : monthOffset L m ≤ dwy) (hhi : dwy < monthOffset L m + monthLen L m) :
    monthFromDwy L dwy = m := by
  unfold monthFromDwy monthLen monthOffset at *
  split_ifs at * <;> omega

theorem dayWithinYear_bound (z : Int) :
    0 ≤ dayWithinYear z ∧ dayWithinYear z < 365 + inLeapYear (yearFromDay z) := by
  rcases yearFromDay_spec z with ⟨s1, s2⟩
  rw [dayFromYear_succ] at s2
  unfold dayWithinYear
  omega

theorem getMonth_valid (z : Int) : 0 ≤ getMonth z ∧ getMonth z < 12 := by
  rcases dayWithinYear_bound z with ⟨h0, h1⟩
  rcases monthFromDwy_spec (inLeapYear (yearFromDay z)) (dayWithinYear z)
    (inLeapYear_cases _) h0 h1 with ⟨a, b, _, _⟩
  exact ⟨a, b⟩

theorem getDate_valid (z : Int) :
    1 ≤ getDate z ∧ getDate z ≤ daysInMonth (getFullYear z) (getMonth z) := by
  rcases dayWithinYear_bound z with ⟨h0, h1⟩
  rcases monthFromDwy_spec (inLeapYear (yearFromDay z)) (dayWithinYear z)
    (inLeapYear_cases _) h0 h1 with ⟨_, _, c, d⟩
  unfold getDate daysInMonth getFullYear getMonth
  omega

/-- Rebuilding a day from its own accessors gives the day back; this is the
identity behind new Date(d.getFullYear(), d.getMonth(), d.getDate() + k). -/
theorem makeDay_recompose (z : Int) : makeDay (getFullYear z) (getMonth z) (getDate z) = z := by
  rcases getMonth_valid z with ⟨hm0, hm1⟩
  rcases dayWithinYear_bound z with ⟨h0, h1⟩
  rcases monthFromDwy_spec (inLeapYear (yearFromDay z)) (dayWithinYear z)
    (inLeapYear_cases _) h0 h1 with ⟨_, _, c, _⟩
  unfold makeDay getDate getFullYear
  have hdiv : getMonth z / 12 = 0 := by omega
  have hmod : getMonth z % 12 = getMonth z := by omega
  rw [hdiv, hmod]
  simp only [add_zero]
  unfold dayWithinYear getMonth at *
  omega

theorem monthOffset_add_len_le (L m : Int) (hL : L = 0 ∨ L = 1) (hm0 : 0 ≤ m) (hm1 : m < 12) :
    monthOffset L m + monthLen L m ≤ 365 + L ∧ 0 ≤ monthOffset L m := by
  unfold monthLen monthOffset
  split_ifs <;> omega

/-- The accessors of a day built from a valid civil triple recover the
triple. -/
theorem makeDay_civil (y m d : Int) (hm0 : 0 ≤ m) (hm1 : m < 12) (hd0 : 1 ≤ d)
    (hd1 : d ≤ daysInMonth y m) :
    getFullYear (makeDay y m d) = y ∧ getMonth (makeDay y m d) = m ∧
    getDate (makeDay y m d) = d := by
  have hdiv : m / 12 = 0 := by omega
  have hmod : m % 12 = m := by omega
  have hz : makeDay y m d = dayFromYear y + monthOffset (inLeapYear y) m + (d - 1) := by
    unfold makeDay
    rw [hdiv, hmod]
    simp only [add_zero]
  rcases monthOffset_add_len_le (inLeapYear y) m (inLeapYear_cases y) hm0 hm1 with ⟨hle, hoff0⟩
  unfold daysInMonth at hd1
  have hy : yearFromDay (makeDay y m d) = y := by
    apply yearFromDay_bracket
    · rw [hz]; omega
    · rw [dayFromYear_succ, hz]; omega
  have hdwy : dayWithinYear (makeDay y m d) = monthOffset (inLeapYear y) m + (d - 1) := by
    unfold dayWithinYear
    rw [hy, hz]
    ring
  have hmonth : getMonth (makeDay y m d) = m := by
    unfold getMonth
    rw [hy, hdwy]
    exact monthFromDwy_eq (inLeapYear y) m _ (inLeapYear_cases y) hm0 hm1 (by omega) (by omega)
  refine ⟨hy, hmonth, ?_⟩
  unfold getDate
  rw [hy, hdwy, hmonth]
  ring

theorem makeDay_add (y m d k : Int) : makeDay y m (d + k) = makeDay y m d + k := by
  unfold makeDay
  ring

theorem daysInMonth_ge_28 (y m : Int) : 28 ≤ daysInMonth y m := by
  have hL := inLeapYear_cases y
  unfold daysInMonth monthLen monthOffset
  split_ifs <;> omega

/-- Two civil (year, month) pairs with the same absolute month index denote
the same month after MakeDay normalisation. -/
theorem makeDay_month_index (y1 m1 y2 m2 d : Int) (h : 12 * y1 + m1 = 12 * y2 + m2) :
    makeDay y1 m1 d = makeDay y2 m2 d := by
  have e1 : y1 + m1 / 12 = y2 + m2 / 12 := by omega
  have e2 : m1 % 12 = m2 % 12 := by omega
  unfold makeDay
  rw [e1, e2]

theorem firstOf_civil (a : Int) :
    getFullYear (firstOfDisplayedMonth a) = getFullYear a ∧
    getMonth (firstOfDisplayedMonth a) = getMonth a ∧
    getDate (firstOfDisplayedMonth a) = 1 := by
  rcases getMonth_valid a with ⟨h0, h1⟩
  exact makeDay_civil (getFullYear a) (getMonth a) 1 h0 h1 (by omega)
    (by have := daysInMonth_ge_28 (getFullYear a) (getMonth a); omega)

theorem gridStart_eq (a : Int) :
    gridStartOf a =
      firstOfDisplayedMonth a - (getDay (firstOfDisplayedMonth a) + 6) % 7 := by
  rcases firstOf_civil a with ⟨hy, hm, hd⟩
  unfold gridStartOf setDate
  rw [hy, hm, hd]
  rw [show (1 - (getDay (firstOfDisplayedMonth a) + 6) % 7 : Int) =
    1 + (-((getDay (firstOfDisplayedMonth a) + 6) % 7)) from by ring]
  rw [makeDay_add]
  unfold firstOfDisplayedMonth
  ring

theorem getDay_gridStart (a : Int) : getDay (gridStartOf a) = 1 := by
  rw [gridStart_eq]
  unfold getDay
  omega

theorem calendarCells_length (tz a : Int) (ws : List Workout) (today : Int) :
    (calendarCells tz a ws today).length = 42 := by
  unfold calendarCells
  rw [List.length_map, List.length_range]

theorem cell_date_eq (a : Int) (i : Int) :
    makeDay (getFullYear (gridStartOf a)) (getMonth (gridStartOf a))
      (getDate (gridStartOf a) + i) = gridStartOf a + i := by
  rw [makeDay_add, makeDay_recompose]

theorem calendarCells_dates (tz a : Int) (ws : List Workout) (today : Int) :
    (calendarCells tz a ws today).map (fun c => c.date) =
      (List.range 42).map (fun (i : Nat) => gridStartOf a + (i : Int)) := by
  unfold calendarCells
  rw [List.map_map]
  apply List.map_congr_left
  intro i _
  simp only [Function.comp]
  exact cell_date_eq a i

theorem utcDay_eq_of_tz_nonpos (tz z : Int) (h1 : -1440 < tz) (h2 : tz ≤ 0) :
    utcDayOfLocalMidnight tz z = z := by
  unfold utcDayOfLocalMidnight
  omega

theorem utcDay_eq_pred_of_tz_pos (tz z : Int) (h1 : 0 < tz) (h2 : tz < 1440) :
    utcDayOfLocalMidnight tz z = z - 1 := by
  unfold utcDayOfLocalMidnight
  omega

theorem cell_mem_iff (tz a : Int) (ws : List Workout) (today : Int) (c : CalendarCell) :
    c ∈ calendarCells tz a ws today →
      c.isoDate = toISODateString tz c.date ∧
      c.hasWorkout = !(workoutsByDate ws c.isoDate).isEmpty := by
  intro hc
  unfold calendarCells at hc
  rw [List.mem_map] at hc
  obtain ⟨i, _, rfl⟩ := hc
  exact ⟨rfl, rfl⟩

theorem makeDay_self (a : Int) (h : getDate a = 1) :
    makeDay (getFullYear a) (getMonth a) 1 = a := by
  have hr := makeDay_recompose a
  rw [h] at hr
  exact hr

theorem nextMonthAnchor_civil (a : Int) :
    12 * getFullYear (goToNextMonthAnchor a) + getMonth (goToNextMonthAnchor a) =
      12 * getFullYear a + getMonth a + 1 ∧
    getDate (goToNextMonthAnchor a) = 1 := by
  rcases getMonth_valid a with ⟨h0, h1⟩
  have hidx : goToNextMonthAnchor a =
      makeDay (getFullYear a + (getMonth a + 1) / 12) ((getMonth a + 1) % 12) 1 := by
    unfold goToNextMonthAnchor
    exact makeDay_month_index _ _ _ _ _ (by omega)
  have hpos := daysInMonth_ge_28 (getFullYear a + (getMonth a + 1) / 12) ((getMonth a + 1) % 12)
  rcases makeDay_civil (getFullYear a + (getMonth a + 1) / 12) ((getMonth a + 1) % 12) 1
    (by omega) (by omega) (by omega) (by omega) with ⟨hy, hm, hd⟩
  rw [hidx, hy, hm, hd]
  omega

theorem prevMonthAnchor_civil (a : Int) :
    12 * getFullYear (goToPreviousMonthAnchor a) + getMonth (goToPreviousMonthAnchor a) =
      12 * getFullYear a + getMonth a - 1 ∧
    getDate (goToPreviousMonthAnchor a) = 1 := by
  rcases getMonth_valid a with ⟨h0, h1⟩
  have hidx : goToPreviousMonthAnchor a =
      makeDay (getFullYear a + (getMonth a - 1) / 12) ((getMonth a - 1) % 12) 1 := by
    unfold goToPreviousMonthAnchor
    exact makeDay_month_index _ _ _ _ _ (by omega)
  have hpos := daysInMonth_ge_28 (getFullYear a + (getMonth a - 1) / 12) ((getMonth a - 1) % 12)
  rcases makeDay_civil (getFullYear a + (getMonth a - 1) / 12) ((getMonth a - 1) % 12) 1
    (by omega) (by omega) (by omega) (by omega) with ⟨hy, hm, hd⟩
  rw [hidx, hy, hm, hd]
  omega

theorem prev_next_anchor (a : Int) (h : getDate a = 1) :
    goToPreviousMonthAnchor (goToNextMonthAnchor a) = a := by
  rcases nextMonthAnchor_civil a with ⟨hidx, _⟩
  unfold goToPreviousMonthAnchor
  rw [makeDay_month_index (getFullYear (goToNextMonthAnchor a))
    (getMonth (goToNextMonthAnchor a) - 1) (getFullYear a) (getMonth a) 1 (by omega)]
  exact makeDay_self a h

theorem next_prev_anchor (a : Int) (h : getDate a = 1) :
    goToNextMonthAnchor (goToPreviousMonthAnchor a) = a := by
  rcases prevMonthAnchor_civil a with ⟨hidx, _⟩
  unfold goToNextMonthAnchor
  rw [makeDay_month_index (getFullYear (goToPreviousMonthAnchor a))
    (getMonth (goToPreviousMonthAnchor a) + 1) (getFullYear a) (getMonth a) 1 (by omega)]
  exact makeDay_self a h

theorem selectionInv_init (today : Int) : SelectionInv (initialState today) := by
  constructor
  · intro d hd
    simp [initialState] at hd
  · intro _
    rfl

theorem selectionInv_step {st st' : AppState} (h : SelectionInv st) (hs : Step st st') :
    SelectionInv st' := by
  rcases h with ⟨hsel, hfd⟩
  cases hs with
  | fetch outcome st h =>
    have hw : st.workouts = [] := hfd h
    constructor
    · intro d hd
      have hd' : st.selectedDate = some d := by
        rcases outcome <;> simpa [loadWorkouts] using hd
      exact absurd (show workoutsByDate st.workouts d = [] from by rw [hw]; rfl) (hsel d hd')
    · intro hfalse
      simp at hfalse
  | select isoDate st =>
    unfold selectDay handleDaySelect
    split_ifs with hw
    · constructor
      · intro d hd
        simp at hd
        subst hd
        simpa using hw
      · intro hfd2
        exact hfd hfd2
    · exact ⟨hsel, hfd⟩
  | close st => exact ⟨by intro d hd; simp [closeModal] at hd, hfd⟩
  | prevMonth st => exact ⟨hsel, hfd⟩
  | nextMonth st => exact ⟨hsel, hfd⟩
  | touchStart x st => exact ⟨hsel, hfd⟩
  | touchEnd x st =>
    unfold handleTouchEnd
    cases st.touchStartX with
    | none => exact ⟨hsel, hfd⟩
    | some startX =>
      dsimp only
      split_ifs <;> exact ⟨hsel, hfd⟩

theorem selectionInv_reachable {today : Int} {st : AppState} (h : Reachable today st) :
    SelectionInv st := by
  induction h with
  | init => exact selectionInv_init today
  | step _ hs ih => exact selectionInv_step ih hs

theorem toggleTheme_cached (st : ThemeState) : (toggleTheme st).cached = st.cached := rfl

theorem toggleTheme_toggleTheme_dark (st : ThemeState) (h : st.mode = ThemeMode.dark) :
    (toggleTheme (toggleTheme st)).mode = ThemeMode.dark ∧
    (toggleTheme (toggleTheme st)).cached = st.cached ∧
    (toggleTheme (toggleTheme st)).applied = st.cached := by
  unfold toggleTheme applyCssVariables
  rw [h]
  exact ⟨rfl, rfl, rfl⟩

theorem handleThemeChange_spec (host : ThemeParams) (st : ThemeState) :
    (handleThemeChange host st).mode = st.mode ∧
    (∀ k, (handleThemeChange host st).cached k = ((host k).getD (st.cached k))) ∧
    (st.mode = ThemeMode.dark →
      (handleThemeChange host st).applied = (handleThemeChange host st).cached) ∧
    (st.mode = ThemeMode.light →
      ∀ k, (handleThemeChange host st).applied k = ((host k).getD (st.applied k))) := by
  refine ⟨rfl, ?_, ?_, ?_⟩
  · intro k
    unfold handleThemeChange extractThemeFromWebApp
    dsimp only
    cases host k <;> rfl
  · intro h
    unfold handleThemeChange
    rw [h]
    rfl
  · intro h
    intro k
    unfold handleThemeChange applyThemeParams
    rw [h]
    dsimp only
    rw [if_neg (by decide : ¬ (ThemeMode.light = ThemeMode.dark))]
    cases host k <;> rfl

/-- Concrete anchors tying the date model to known calendar facts: the epoch
day is 1970-01-01, a Thursday; 2024-02-01 is day 19754; the Monday before it
is 2024-01-29, day 19751; and the ISO string of that Monday in a UTC
environment is its own civil day. -/
theorem model_calendar_anchors :
    makeDay 1970 0 1 = 0 ∧ getDay 0 = 4 ∧
    makeDay 2024 1 1 = 19754 ∧ getDay 19751 = 1 ∧
    getFullYear 19751 = 2024 ∧ getMonth 19751 = 0 ∧ getDate 19751 = 29 ∧
    gridStartOf (makeDay 2024 1 1) = 19751 ∧
    toISODateString 0 19751 = "2024-01-29" ∧
    formatDayLabel 19758 = "5 февраля 2024 г." := by
  decide

/-- C1: for every anchor month, workout index and today value (and every
environment offset), the grid builder returns exactly 42 cells whose dates
are the 42 consecutive days from the grid start; the grid start is the first
day of the anchor month stepped back by (weekday + 6) mod 7 days (weekday
Sunday = 0 ... Saturday = 6), and its weekday is Monday (1). -/
theorem claim_C1 (tz anchor : Int) (ws : List Workout) (today : Int) :
    (calendarCells tz anchor ws today).length = 42 ∧
    (calendarCells tz anchor ws today).map (fun c => c.date) =
      (List.range 42).map (fun (i : Nat) => gridStartOf anchor + (i : Int)) ∧
    gridStartOf anchor =
      firstOfDisplayedMonth anchor - (getDay (firstOfDisplayedMonth anchor) + 6) % 7 ∧
    getDay (gridStartOf anchor) = 1 :=
  ⟨calendarCells_length tz anchor ws today, calendarCells_dates tz anchor ws today,
    gridStart_eq anchor, getDay_gridStart anchor⟩

set_option maxRecDepth 20000 in
/-- C2 counterexample: in an environment east of UTC (Moscow, offset +180
minutes), the first cell of the February 2024 grid has civil day 2024-01-29
but isoDate "2024-01-28", which differs from the zero-padded string of its
own year, month and day; consequently a workout keyed 2024-01-29 is present
in the index but the cell's hasWorkout is false. -/
theorem claim_C2_counterexample :
    ((calendarCells 180 februaryAnchor2024 [workoutJan29] (makeDay 2024 1 5)).get
        ⟨0, by rw [calendarCells_length]; omega⟩).isoDate = "2024-01-28" ∧
    getFullYear ((calendarCells 180 februaryAnchor2024 [workoutJan29]
        (makeDay 2024 1 5)).get ⟨0, by rw [calendarCells_length]; omega⟩).date = 2024 ∧
    getMonth ((calendarCells 180 februaryAnchor2024 [workoutJan29]
        (makeDay 2024 1 5)).get ⟨0, by rw [calendarCells_length]; omega⟩).date = 0 ∧
    getDate ((calendarCells 180 februaryAnchor2024 [workoutJan29]
        (makeDay 2024 1 5)).get ⟨0, by rw [calendarCells_length]; omega⟩).date = 29 ∧
    isoDayString 2024 0 29 = "2024-01-29" ∧
    ((calendarCells 180 februaryAnchor2024 [workoutJan29] (makeDay 2024 1 5)).get
        ⟨0, by rw [calendarCells_length]; omega⟩).hasWorkout = false ∧
    workoutsByDate [workoutJan29] "2024-01-29" ≠ [] := by
  decide

/-- C2 (amended): every cell's isoDate is the ISO string of the UTC day of
the cell's local-midnight date, and hasWorkout is exactly a non-empty index
lookup under that isoDate key; when the environment's UTC offset is not east
of UTC (more than -24h and at most 0), the UTC day coincides with the cell's
own civil day, so isoDate equals the zero-padded YYYY-MM-DD string of the
cell's own (year, month, day). -/
theorem claim_C2 (tz anchor : Int) (ws : List Workout) (today : Int)
    (h1 : -1440 < tz) (h2 : tz ≤ 0) :
    ∀ c ∈ calendarCells tz anchor ws today,
      c.isoDate = isoDayString (getFullYear c.date) (getMonth c.date) (getDate c.date) ∧
      (c.hasWorkout = true ↔ workoutsByDate ws c.isoDate ≠ []) := by
  intro c hc
  rcases cell_mem_iff tz anchor ws today c hc with ⟨hiso, hhw⟩
  constructor
  · rw [hiso]
    unfold toISODateString
    rw [utcDay_eq_of_tz_nonpos tz c.date h1 h2]
  · rw [hhw]
    simp [List.isEmpty_iff]

set_option maxRecDepth 20000 in
theorem claim_C2_witness :
    ((calendarCells 0 februaryAnchor2024 [workoutJan29] (makeDay 2024 1 5)).get
        ⟨0, by rw [calendarCells_length]; omega⟩).isoDate =
      isoDayString
        (getFullYear ((calendarCells 0 februaryAnchor2024 [workoutJan29]
          (makeDay 2024 1 5)).get ⟨0, by rw [calendarCells_length]; omega⟩).date)
        (getMonth ((calendarCells 0 februaryAnchor2024 [workoutJan29]
          (makeDay 2024 1 5)).get ⟨0, by rw [calendarCells_length]; omega⟩).date)
        (getDate ((calendarCells 0 februaryAnchor2024 [workoutJan29]
          (makeDay 2024 1 5)).get ⟨0, by rw [calendarCells_length]; omega⟩).date) ∧
    (((calendarCells 0 februaryAnchor2024 [workoutJan29] (makeDay 2024 1 5)).get
        ⟨0, by rw [calendarCells_length]; omega⟩).hasWorkout = true ↔
      workoutsByDate [workoutJan29]
        ((calendarCells 0 februaryAnchor2024 [workoutJan29] (makeDay 2024 1 5)).get
          ⟨0, by rw [calendarCells_length]; omega⟩).isoDate ≠ []) :=
  claim_C2 0 februaryAnchor2024 [workoutJan29] (makeDay 2024 1 5) (by omega) (by omega)
    _ (List.get_mem _ _ _)

/-- C3 counterexample: with the theme mode light and the light palette
applied, a host notification that supplies a background color changes the
applied background style variable (to the host value), so the notification
does not leave every applied style variable unchanged in light mode. -/
theorem claim_C3_counterexample :
    lightThemeState.mode = ThemeMode.light ∧
    (handleThemeChange hostBgOnly lightThemeState).applied ThemeKey.bgColor = "#123456" ∧
    lightThemeState.applied ThemeKey.bgColor = "#f8fafc" ∧
    (handleThemeChange hostBgOnly lightThemeState).applied ThemeKey.bgColor ≠
      lightThemeState.applied ThemeKey.bgColor := by
  refine ⟨rfl, rfl, rfl, ?_⟩
  decide

/-- C3 (amended): a host theme-change notification never changes the mode;
it updates the cached host-derived palette per key to the host value when
supplied and the previously cached value otherwise; when the mode is dark it
re-applies the full updated cached palette to the style variables; when the
mode is light it still writes every host-supplied key to the applied style
variables (through applyThemeParams) and leaves only the keys the host did
not supply unchanged. -/
theorem claim_C3 (host : ThemeParams) (st : ThemeState) :
    (handleThemeChange host st).mode = st.mode ∧
    (∀ k, (handleThemeChange host st).cached k = (host k).getD (st.cached k)) ∧
    (st.mode = ThemeMode.dark →
      (handleThemeChange host st).applied = (handleThemeChange host st).cached) ∧
    (st.mode = ThemeMode.light →
      ∀ k, (handleThemeChange host st).applied k = (host k).getD (st.applied k)) :=
  handleThemeChange_spec host st

theorem claim_C3_witness :
    (handleThemeChange hostBgOnly lightThemeState).applied ThemeKey.textColor =
      lightThemeState.applied ThemeKey.textColor ∧
    (handleThemeChange hostBgOnly lightThemeState).cached ThemeKey.bgColor = "#123456" ∧
    (handleThemeChange hostBgOnly darkThemeState).applied =
      (handleThemeChange hostBgOnly darkThemeState).cached := by
  refine ⟨?_, ?_, ?_⟩
  · exact (claim_C3 hostBgOnly lightThemeState).2.2.2 rfl ThemeKey.textColor
  · exact (claim_C3 hostBgOnly lightThemeState).2.1 ThemeKey.bgColor
  · exact (claim_C3 hostBgOnly darkThemeState).2.2.1 rfl

set_option maxRecDepth 100000 in
/-- C4: grid construction is not a function of (anchor month, workout index)
alone, because the builder reads the ambient clock for the isToday flag: with
the same anchor (February 2024) and the same empty index, building while the
clock reads 2024-02-05 and while it reads 2024-02-06 yields different
grids. -/
theorem claim_C4 :
    calendarCells 0 februaryAnchor2024 [] (makeDay 2024 1 5) ≠
      calendarCells 0 februaryAnchor2024 [] (makeDay 2024 1 6) := by
  decide

/-- C5: for any month anchor (a date with day component 1, the MonthAnchor
invariant), previous applied after next returns the original anchor, both
produced anchors have day component 1, and each is exactly one calendar month
away measured by the absolute month index 12 * year + month. -/
theorem claim_C5 (a : Int) (h : getDate a = 1) :
    goToPreviousMonthAnchor (goToNextMonthAnchor a) = a ∧
    getDate (goToNextMonthAnchor a) = 1 ∧
    getDate (goToPreviousMonthAnchor a) = 1 ∧
    12 * getFullYear (goToNextMonthAnchor a) + getMonth (goToNextMonthAnchor a) =
      12 * getFullYear a + getMonth a + 1 ∧
    12 * getFullYear (goToPreviousMonthAnchor a) + getMonth (goToPreviousMonthAnchor a) =
      12 * getFullYear a + getMonth a - 1 :=
  ⟨prev_next_anchor a h, (nextMonthAnchor_civil a).2, (prevMonthAnchor_civil a).2,
    (nextMonthAnchor_civil a).1, (prevMonthAnchor_civil a).1⟩

theorem claim_C5_witness :
    goToPreviousMonthAnchor (goToNextMonthAnchor (makeDay 2024 11 1)) = makeDay 2024 11 1 ∧
    getDate (goToNextMonthAnchor (makeDay 2024 11 1)) = 1 ∧
    getDate (goToPreviousMonthAnchor (makeDay 2024 11 1)) = 1 ∧
    12 * getFullYear (goToNextMonthAnchor (makeDay 2024 11 1)) +
        getMonth (goToNextMonthAnchor (makeDay 2024 11 1)) =
      12 * getFullYear (makeDay 2024 11 1) + getMonth (makeDay 2024 11 1) + 1 ∧
    12 * getFullYear (goToPreviousMonthAnchor (makeDay 2024 11 1)) +
        getMonth (goToPreviousMonthAnchor (makeDay 2024 11 1)) =
      12 * getFullYear (makeDay 2024 11 1) + getMonth (makeDay 2024 11 1) - 1 :=
  claim_C5 (makeDay 2024 11 1) (by decide)

/-- C6: on touch-end with no recorded start the handler does nothing; with a
recorded start, delta greater than 40 navigates to the previous month, delta
less than -40 navigates to the next month, and any delta of magnitude at most
40 (including exactly 40 and -40) leaves the displayed month unchanged; in
every case the recorded start is cleared. -/
theorem claim_C6 (st : AppState) (endX : Option Int) :
    (st.touchStartX = none → handleTouchEnd endX st = st) ∧
    (∀ startX : Int, st.touchStartX = some startX →
      (endX.getD 0 - startX > 40 →
        handleTouchEnd endX st = { goToPreviousMonth st with touchStartX := none }) ∧
      (endX.getD 0 - startX < -40 →
        handleTouchEnd endX st = { goToNextMonth st with touchStartX := none }) ∧
      (-40 ≤ endX.getD 0 - startX → endX.getD 0 - startX ≤ 40 →
        handleTouchEnd endX st = { st with touchStartX := none })) := by
  constructor
  · intro h
    unfold handleTouchEnd
    rw [h]
  · intro startX hsx
    unfold handleTouchEnd
    rw [hsx]
    dsimp only
    refine ⟨?_, ?_, ?_⟩
    · intro h1
      split_ifs <;> first | rfl | (exfalso; omega)
    · intro h1
      split_ifs <;> first | rfl | (exfalso; omega)
    · intro h1 h2
      split_ifs <;> first | rfl | (exfalso; omega)

theorem claim_C6_witness :
    handleTouchEnd (some 150) demoAppState =
      { goToNextMonth demoAppState with touchStartX := none } ∧
    handleTouchEnd (some 241) demoAppState =
      { goToPreviousMonth demoAppState with touchStartX := none } ∧
    handleTouchEnd (some 240) demoAppState = { demoAppState with touchStartX := none } ∧
    handleTouchEnd (some 160) demoAppState = { demoAppState with touchStartX := none } ∧
    handleTouchEnd (some 100) { demoAppState with touchStartX := none } =
      { demoAppState with touchStartX := none } := by
  refine ⟨?_, ?_, ?_, ?_, ?_⟩
  · exact ((claim_C6 demoAppState (some 150)).2 200 rfl).2.1 (by decide)
  · exact ((claim_C6 demoAppState (some 241)).2 200 rfl).1 (by decide)
  · exact ((claim_C6 demoAppState (some 240)).2 200 rfl).2.2 (by decide) (by decide)
  · exact ((claim_C6 demoAppState (some 160)).2 200 rfl).2.2 (by decide) (by decide)
  · exact (claim_C6 { demoAppState with touchStartX := none } (some 100)).1 rfl

/-- C7: toggling the theme never changes the cached host-derived palette, and
toggling from dark to light and back to dark ends in dark mode with the
cached palette unchanged and re-applied exactly as it stood before. -/
theorem claim_C7 (st : ThemeState) :
    (toggleTheme st).cached = st.cached ∧
    (st.mode = ThemeMode.dark →
      (toggleTheme (toggleTheme st)).mode = ThemeMode.dark ∧
      (toggleTheme (toggleTheme st)).cached = st.cached ∧
      (toggleTheme (toggleTheme st)).applied = st.cached) :=
  ⟨toggleTheme_cached st, fun h => toggleTheme_toggleTheme_dark st h⟩

theorem claim_C7_witness :
    (toggleTheme darkThemeState).cached = darkThemeState.cached ∧
    (toggleTheme (toggleTheme darkThemeState)).mode = ThemeMode.dark ∧
    (toggleTheme (toggleTheme darkThemeState)).cached = darkThemeState.cached ∧
    (toggleTheme (toggleTheme darkThemeState)).applied = darkThemeState.cached := by
  have h := claim_C7 darkThemeState
  exact ⟨h.1, (h.2 rfl).1, (h.2 rfl).2.1, (h.2 rfl).2.2⟩

/-- C8: in every reachable state a selected date has a non-empty workout
index entry; selecting a date with an empty or absent entry is a no-op,
selecting a date with a non-empty entry sets it, and closing the modal always
clears the selection. -/
theorem claim_C8 (today : Int) (st : AppState) (h : Reachable today st) :
    (∀ d : String, st.selectedDate = some d → workoutsByDate st.workouts d ≠ []) ∧
    (∀ isoDate : String, workoutsByDate st.workouts isoDate = [] →
      selectDay isoDate st = st) ∧
    (∀ isoDate : String, workoutsByDate st.workouts isoDate ≠ [] →
      (selectDay isoDate st).selectedDate = some isoDate) ∧
    (closeModal st).selectedDate = none := by
  refine ⟨(selectionInv_reachable h).1, ?_, ?_, rfl⟩
  · intro isoDate hempty
    unfold selectDay handleDaySelect
    rw [hempty]
    rfl
  · intro isoDate hne
    unfold selectDay handleDaySelect
    have hb : (workoutsByDate st.workouts isoDate).isEmpty = false := by
      simp [List.isEmpty_iff]
      exact hne
    rw [hb]
    rfl

theorem claim_C8_witness :
    selectDay "2024-02-05" (initialState 19758) = initialState 19758 ∧
    (closeModal (initialState 19758)).selectedDate = none :=
  ⟨(claim_C8 19758 (initialState 19758) Reachable.init).2.1 "2024-02-05" rfl,
    (claim_C8 19758 (initialState 19758) Reachable.init).2.2.2⟩

/-- C9: an aborted fetch leaves the workout list and the fetch-error status
exactly as they were; only the loading flag is touched by the finally
clause. -/
theorem claim_C9 (st : AppState) :
    (loadWorkouts FetchOutcome.aborted st).workouts = st.workouts ∧
    (loadWorkouts FetchOutcome.aborted st).fetchError = st.fetchError :=
  ⟨rfl, rfl⟩

/-- C10: on a touch-end whose changed-touches list is empty but with a
recorded start, the handler takes the end coordinate to be 0, so the delta is
minus the start; whenever the recorded start exceeds 40 this navigates to the
next month. -/
theorem claim_C10 (st : AppState) (startX : Int) (h : st.touchStartX = some startX)
    (h40 : 40 < startX) :
    (none : Option Int).getD 0 - startX = -startX ∧
    handleTouchEnd none st = { goToNextMonth st with touchStartX := none } := by
  constructor
  · rw [show ((none : Option Int).getD 0) = 0 from rfl]
    ring
  · unfold handleTouchEnd
    rw [h]
    dsimp only
    rw [show ((none : Option Int).getD 0) = 0 from rfl]
    split_ifs <;> first | rfl | (exfalso; omega)

theorem claim_C10_witness :
    (none : Option Int).getD 0 - 200 = -200 ∧
    handleTouchEnd none demoAppState =
      { goToNextMonth demoAppState with touchStartX := none } :=
  claim_C10 demoAppState 200 rfl (by omega)
